import Mathlib

/-!
Shallow embedding of the refresh/reconciliation engine of
`custom_components/china_southern_power_grid_stat/sensor.py`
(the China Southern Power Grid statistics integration).

The embedding models the pure decision logic of `csg_fetch_all` and its
helpers (`_safe_fetch`, the refresh policy, the this-month merge, the
latest-day fallback, the ladder extraction, the snapshot assembly) and the
error classification of `CSGCoordinator._async_update_data`.

Conventions used throughout:
* Python numbers (kwh, cost, balance) are modelled as rationals `ℚ`;
  dates are opaque strings.
* The Home Assistant sentinel `STATE_UNAVAILABLE`, the integration's
  `STATE_UPDATE_UNCHANGED` and `STATE_UNKNOWN` become constructors of
  a sum type `SVal`, since in the Python code a variable holding one of
  them never holds a real value at the same time.
* `_safe_fetch` with `num_ret = n > 1` returns either the remote call's
  n-tuple or a list of n `STATE_UNAVAILABLE` sentinels, so a multi-value
  fetch result is modelled as `Option (…)`: `none` is the all-sentinel
  outcome, `some` the successful tuple.  This coupling is itself visible
  in the `safeFetch` model below: on a classified error it returns the
  all-sentinel tuple of the expected arity.
-/

namespace CSG

/-- Scalar value of a snapshot field: a number, a date string, or one of
the three sentinel strings used by `sensor.py` (`STATE_UNAVAILABLE`,
`STATE_UPDATE_UNCHANGED`, `STATE_UNKNOWN`). -/
inductive SVal where
  | num (q : ℚ)
  | date (d : String)
  | unavailable
  | unchanged
  | unknown
  deriving DecidableEq, Repr

/-- A day record of a daily series, as produced by the usage feed or the
cost feed: `{"date": …, "kwh": …, "cost": …}`; the `cost` key may be
absent (usage feed) or present (cost feed). -/
structure DailyRecord where
  date : String
  kwh : ℚ
  cost : Option ℚ
  deriving DecidableEq, Repr, Inhabited

/-- The value of the `last_month_by_day` variable: a list of day records,
or the `STATE_UNAVAILABLE` sentinel, or the `STATE_UPDATE_UNCHANGED`
sentinel. -/
inductive LMSeries where
  | list (xs : List DailyRecord)
  | unavailable
  | unchanged
  deriving DecidableEq, Repr

/-- The in-place loop of sensor.py lines 532-533:
`for idx, item in enumerate(cost): base[idx]["cost"] = item["cost"]`.
The caller (the merge) only runs it when `cost` is strictly shorter than
`base`, so the `([], _ :: _)` case (an IndexError in Python) is
unreachable there. -/
def copyCosts : List DailyRecord → List DailyRecord → List DailyRecord
  | base, [] => base
  | [], _ :: _ => []
  | b :: bs, c :: cs => { b with cost := c.cost } :: copyCosts bs cs

/-- The this-month merge of sensor.py lines 508-534.  `usage` is the
result of `get_month_daily_usage_detail` through `_safe_fetch`
(`none` = both `this_month_kwh_from_usage` and
`this_month_by_day_from_usage` are `STATE_UNAVAILABLE`); `cost` is the
kwh total and daily series part of the `get_month_daily_cost_detail`
result.  Returns `(this_month_by_day, this_month_kwh)`.  The code's
branch order is: both unavailable; cost-series unavailable; usage-kwh
unavailable; both available (length comparison). -/
def mergeThisMonth (usage : Option (ℚ × List DailyRecord))
    (cost : Option (ℚ × List DailyRecord)) :
    Option (List DailyRecord) × SVal :=
  match cost, usage with
  | none, none => (none, SVal.unavailable)
  | none, some (uk, us) => (some us, SVal.num uk)
  | some (ck, cs), none => (some cs, SVal.num ck)
  | some (ck, cs), some (uk, us) =>
    if us.length ≤ cs.length then (some cs, SVal.num ck)
    else (some (copyCosts us cs), SVal.num uk)

/-- The refresh policy of sensor.py lines 422-449.  `marker` is
`hass.data[DOMAIN][entry_id].get(DATA_KEY_LAST_UPDATE_DAY)` (`none` on
the first cycle).  Returns `(update_last_month, update_last_year)`. -/
def refreshPolicy (marker : Option Nat) (thisMonth thisDay : Nat) :
    Bool × Bool :=
  match marker with
  | none => (true, true)
  | some stored =>
    let updateLastMonth := decide (thisDay ≤ 5)
    let todayFirstUpdateTriggered := decide (stored = thisDay)
    let updateLastYear :=
      decide (thisMonth = 1) && decide (thisDay ≤ 5)
        && !todayFirstUpdateTriggered
    (updateLastMonth, updateLastYear)

/-- Python truthiness test of `not this_month_by_day` at sensor.py line
554: an empty list is falsy; the `STATE_UNAVAILABLE` sentinel is a
non-empty string, hence truthy (it is caught by the explicit equality
test on the next line instead). -/
def thisMonthFalsy : Option (List CSG.DailyRecord) → Bool
  | some xs => xs.isEmpty
  | none => false

/-- The last-month fetch decision of sensor.py lines 552-556:
`update_last_month or (not this_month_by_day) or
(this_month_by_day == STATE_UNAVAILABLE)`. -/
def lastMonthShouldFetch (updateLastMonth : Bool)
    (thisMonthByDay : Option (List CSG.DailyRecord)) : Bool :=
  updateLastMonth || thisMonthFalsy thisMonthByDay
    || decide (thisMonthByDay = none)

/-- The last-month fields of sensor.py lines 552-577: either the
`get_month_daily_usage_detail(account, last_month_ym)` result through
`_safe_fetch` (`fetchRes`, with `none` the all-sentinel outcome), or the
`STATE_UPDATE_UNCHANGED` pair.  Returns
`(last_month_kwh, last_month_by_day)`. -/
def lastMonthFields (updateLastMonth : Bool)
    (thisMonthByDay : Option (List CSG.DailyRecord))
    (fetchRes : Option (ℚ × List CSG.DailyRecord)) : SVal × LMSeries :=
  if lastMonthShouldFetch updateLastMonth thisMonthByDay then
    match fetchRes with
    | some (k, ys) => (SVal.num k, LMSeries.list ys)
    | none => (SVal.unavailable, LMSeries.unavailable)
  else (SVal.unchanged, LMSeries.unchanged)

/-- The expression `this_month_by_day[-1].get("cost") or STATE_UNKNOWN`
of sensor.py lines 593-595: Python's `or` falls through to
`STATE_UNKNOWN` not only when the key is absent (`get` returns `None`)
but also when the stored cost is falsy, i.e. the number `0`. -/
def costOrUnknown : Option ℚ → SVal
  | some q => if q = 0 then SVal.unknown else SVal.num q
  | none => SVal.unknown

/-- The last-month arm of the latest-day fallback, sensor.py lines
600-618: `last_month_by_day not in [STATE_UNAVAILABLE,
STATE_UPDATE_UNCHANGED] and len(last_month_by_day) >= 1`. -/
def latestFromLastMonth : LMSeries → SVal × SVal × SVal
  | LMSeries.list ys =>
    match ys.getLast? with
    | some r => (SVal.num r.kwh, SVal.unknown, SVal.date r.date)
    | none => (SVal.unavailable, SVal.unavailable, SVal.unavailable)
  | _ => (SVal.unavailable, SVal.unavailable, SVal.unavailable)

/-- The latest-day resolution of sensor.py lines 579-618.  `thisMonth`
is the merged `this_month_by_day` (`none` = `STATE_UNAVAILABLE`),
`lastMonth` is `last_month_by_day`.  Returns
`(latest_day_kwh, latest_day_cost, latest_day_date)`. -/
def latestDayFields (thisMonth : Option (List CSG.DailyRecord))
    (lastMonth : LMSeries) : SVal × SVal × SVal :=
  if thisMonth = none ∧ lastMonth = LMSeries.unavailable then
    (SVal.unavailable, SVal.unavailable, SVal.unavailable)
  else
    match thisMonth with
    | some xs =>
      match xs.getLast? with
      | some r => (SVal.num r.kwh, costOrUnknown r.cost, SVal.date r.date)
      | none => latestFromLastMonth lastMonth
    | none => latestFromLastMonth lastMonth

/-- The ladder object returned inside the
`get_month_daily_cost_detail` tuple: a dict whose individual keys may be
`None` even when the call succeeded. -/
structure LadderInfo where
  ladder : Option ℚ
  remaining_kwh : Option ℚ
  tariff : Option ℚ
  start_date : Option String
  deriving DecidableEq, Repr

/-- The ladder extraction of sensor.py lines 482-507: if `ladder` is the
`STATE_UNAVAILABLE` sentinel all four fields are unavailable; otherwise
each key falls back to unavailable individually when `None`.  Returns
`(ladder_stage, ladder_remaining_kwh, ladder_tariff,
ladder_start_date)`. -/
def ladderFields (ladder : Option LadderInfo) :
    SVal × SVal × SVal × SVal :=
  match ladder with
  | some l =>
    ((match l.ladder with
      | some v => SVal.num v
      | none => SVal.unavailable),
     (match l.remaining_kwh with
      | some v => SVal.num v
      | none => SVal.unavailable),
     (match l.tariff with
      | some v => SVal.num v
      | none => SVal.unavailable),
     (match l.start_date with
      | some v => SVal.date v
      | none => SVal.unavailable))
  | none =>
    (SVal.unavailable, SVal.unavailable, SVal.unavailable,
     SVal.unavailable)

/-- The last-year fields of sensor.py lines 536-551: either the
`get_year_month_stats(account, last_year)` result through `_safe_fetch`
(`none` = all sentinels), or the `STATE_UPDATE_UNCHANGED` triple.
Returns `(last_year_cost, last_year_kwh)`; the by-month series attribute
is carried alongside by the snapshot and not a scalar field. -/
def lastYearFields (updateLastYear : Bool) (fetchRes : Option (ℚ × ℚ)) :
    SVal × SVal :=
  if updateLastYear then
    match fetchRes with
    | some (c, k) => (SVal.num c, SVal.num k)
    | none => (SVal.unavailable, SVal.unavailable)
  else (SVal.unchanged, SVal.unchanged)

/-- A leaf Python value inside a tuple returned by a remote operation: a
number, a string, or a list of day records (a daily series). -/
inductive PyLeaf where
  | num (q : ℚ)
  | str (s : String)
  | series (xs : List CSG.DailyRecord)
  deriving DecidableEq, Repr

/-- A Python value as far as `_safe_fetch` inspects one: a leaf value or
a tuple/list of leaf values.  `len` is defined on strings and tuples;
calling it on a number raises a TypeError. -/
inductive PyObj where
  | leaf (a : PyLeaf)
  | tuple (xs : List PyLeaf)
  deriving DecidableEq, Repr

/-- Python `len`; `none` models the TypeError raised on a number. -/
def pyLen : PyObj → Option Nat
  | PyObj.leaf (PyLeaf.num _) => none
  | PyObj.leaf (PyLeaf.str s) => some s.length
  | PyObj.leaf (PyLeaf.series xs) => some xs.length
  | PyObj.tuple xs => some xs.length

/-- The classified remote-API failure (`CSGAPIError`) that `_safe_fetch`
catches. -/
structure ApiError where
  msg : String
  deriving DecidableEq, Repr

/-- Outcome of one `_safe_fetch` call: a returned value, the ValueError
raised on an arity mismatch (sensor.py lines 367-370), or the TypeError
raised by `len` on a non-sized value. -/
inductive FetchOutcome where
  | ok (v : PyObj)
  | valueError
  | typeError
  deriving DecidableEq, Repr

/-- The `STATE_UNAVAILABLE` sentinel (the Home Assistant constant, the
string `"unavailable"`). -/
def unavailableLeaf : PyLeaf := PyLeaf.str "unavailable"

/-- The sentinel as a standalone Python value. -/
def unavailableSentinel : PyObj := PyObj.leaf unavailableLeaf

/-- The `_safe_fetch` wrapper of sensor.py lines 349-371.  `op` is the
wrapped remote operation's outcome: a returned value or a raised
`CSGAPIError`.  `ret` starts as the sentinel (or sentinel list of length
`numRet`) and is overwritten by a successful call; a `num_ret == 1` call
returns `ret` before the arity check. -/
def safeFetch (numRet : Nat) (op : Except ApiError PyObj) : FetchOutcome :=
  let ret : PyObj :=
    match op with
    | Except.ok v => v
    | Except.error _ =>
      if numRet = 1 then unavailableSentinel
      else PyObj.tuple (List.replicate numRet unavailableLeaf)
  if numRet = 1 then FetchOutcome.ok ret
  else
    match pyLen ret with
    | some n =>
      if n = numRet then FetchOutcome.ok ret else FetchOutcome.valueError
    | none => FetchOutcome.typeError

/-- The cycle-level failure raised out of the fetch body or the timeout
block of `_async_update_data` (sensor.py lines 661-687). -/
inductive CycleError where
  | notLoggedIn
  | api (msg : String)
  | timeout (msg : String)
  | unexpected (msg : String)
  deriving DecidableEq, Repr

/-- The typed update failure (`UpdateFailed`) raised to the coordinator,
carrying a human-readable reason. -/
structure UpdateFailedErr where
  reason : String
  deriving DecidableEq, Repr

/-- The exception classification of sensor.py lines 678-687: each
cycle-level failure kind maps to an `UpdateFailed` with its own reason
string. -/
def classifyCycleError : CycleError → UpdateFailedErr
  | CycleError.notLoggedIn => ⟨"Session invalidated unexpectedly"⟩
  | CycleError.api m => ⟨"Error communicating with API: " ++ m⟩
  | CycleError.timeout m => ⟨"Timeout communicating with API: " ++ m⟩
  | CycleError.unexpected m => ⟨"Unexpected exception: " ++ m⟩

/-- One cycle of `_async_update_data` around `csg_fetch_all` for the
last-update-day marker.  The marker assignment (sensor.py lines 656-658)
is the last statement of `csg_fetch_all` before `return data_ret`, so a
body that raises any cycle error leaves the stored marker untouched,
while a completed body stores the current day-of-month.  Returns the
raised/returned result and the marker after the cycle. -/
def runCycle {α : Type} (marker : Option Nat) (thisDay : Nat)
    (body : Except CycleError α) :
    Except UpdateFailedErr α × Option Nat :=
  match body with
  | Except.ok a => (Except.ok a, some thisDay)
  | Except.error e => (Except.error (classifyCycleError e), marker)

/-- The timeout floor of sensor.py lines 664-668: a configured timeout
below 60 seconds is replaced by 60 and a warning is logged.  Returns
`(timeout used, warning logged)`. -/
def effectiveTimeout (configured : ℚ) : ℚ × Bool :=
  if configured < 60 then (60, true) else (configured, false)

/-- The scalar fields of one account's entry in `data_ret` (sensor.py
lines 620-654), together with the two daily-series attributes that feed
the latest-day resolution.  The by-month attribute objects are carried
by the Python dict but are not scalar fields and are omitted here. -/
structure Snapshot where
  bal : SVal
  arr : SVal
  yesterdayKwh : SVal
  latestDayKwh : SVal
  latestDayCost : SVal
  latestDayDate : SVal
  thisYearKwh : SVal
  thisYearCost : SVal
  lastYearKwh : SVal
  lastYearCost : SVal
  thisMonthKwh : SVal
  thisMonthCost : SVal
  lastMonthKwh : SVal
  ladderStage : SVal
  ladderRemainingKwh : SVal
  ladderTariff : SVal
  ladderStartDate : SVal
  thisMonthByDay : Option (List DailyRecord)
  lastMonthByDay : LMSeries
  deriving DecidableEq, Repr

/-- One account's snapshot assembly, sensor.py lines 451-654.  Each
argument is the corresponding remote fetch result through `_safe_fetch`
(`none` = the call failed and every slot is `STATE_UNAVAILABLE`):
`balArr` from `get_balance_and_arrears`; `yesterday` from
`get_yesterday_kwh`; `thisYear` (cost, kwh) from `get_year_month_stats`
for the current year; `usageRes` (kwh, by-day) from
`get_month_daily_usage_detail` for the current month; `costRes`
(cost, kwh, ladder, by-day) from `get_month_daily_cost_detail`;
`lastYearRes` (cost, kwh) for the previous year; `lastMonthRes`
(kwh, by-day) for the previous month (the last-month call is only made
when `lastMonthShouldFetch` holds, so `lastMonthRes` is only read
then). -/
def buildSnapshot (updateLastMonth updateLastYear : Bool)
    (balArr : Option (ℚ × ℚ)) (yesterday : Option ℚ)
    (thisYear : Option (ℚ × ℚ))
    (usageRes : Option (ℚ × List DailyRecord))
    (costRes : Option (ℚ × ℚ × LadderInfo × List DailyRecord))
    (lastYearRes : Option (ℚ × ℚ))
    (lastMonthRes : Option (ℚ × List DailyRecord)) : Snapshot :=
  let ladderTuple :=
    ladderFields (costRes.map (fun r => r.2.2.1))
  let merged :=
    mergeThisMonth usageRes (costRes.map (fun r => (r.2.1, r.2.2.2)))
  let lastYearPair := lastYearFields updateLastYear lastYearRes
  let lastMonthPair := lastMonthFields updateLastMonth merged.1 lastMonthRes
  let latest := latestDayFields merged.1 lastMonthPair.2
  { bal :=
      match balArr with
      | some (b, _) => SVal.num b
      | none => SVal.unavailable
    arr :=
      match balArr with
      | some (_, a) => SVal.num a
      | none => SVal.unavailable
    yesterdayKwh :=
      match yesterday with
      | some q => SVal.num q
      | none => SVal.unavailable
    latestDayKwh := latest.1
    latestDayCost := latest.2.1
    latestDayDate := latest.2.2
    thisYearKwh :=
      match thisYear with
      | some (_, k) => SVal.num k
      | none => SVal.unavailable
    thisYearCost :=
      match thisYear with
      | some (c, _) => SVal.num c
      | none => SVal.unavailable
    lastYearKwh := lastYearPair.2
    lastYearCost := lastYearPair.1
    thisMonthKwh := merged.2
    thisMonthCost :=
      match costRes with
      | some r => SVal.num r.1
      | none => SVal.unavailable
    lastMonthKwh := lastMonthPair.1
    ladderStage := ladderTuple.1
    ladderRemainingKwh := ladderTuple.2.1
    ladderTariff := ladderTuple.2.2.1
    ladderStartDate := ladderTuple.2.2.2
    thisMonthByDay := merged.1
    lastMonthByDay := lastMonthPair.2 }

/-- A scalar field state that is a concrete value: a number or a date
string, as opposed to one of the sentinel strings. -/
def SVal.isConcrete : SVal → Bool
  | SVal.num _ => true
  | SVal.date _ => true
  | _ => false

/-- The three-state contract of the spec: a field is a concrete value,
`STATE_UNAVAILABLE`, or `STATE_UPDATE_UNCHANGED`. -/
def threeState (v : SVal) : Bool :=
  v.isConcrete || decide (v = SVal.unavailable)
    || decide (v = SVal.unchanged)

/-! Helper lemmas. -/

lemma copyCosts_length (base cost : List DailyRecord)
    (h : cost.length ≤ base.length) :
    (copyCosts base cost).length = base.length := by
  induction cost generalizing base with
  | nil => cases base <;> simp [copyCosts]
  | cons c cs ih =>
    cases base with
    | nil => simp at h
    | cons b bs =>
      simp only [copyCosts, List.length_cons]
      rw [ih bs (by simpa using h)]

lemma copyCosts_getD (base cost : List DailyRecord) (i : Nat)
    (d : DailyRecord) (h : cost.length ≤ base.length) :
    (copyCosts base cost).getD i d =
      if i < cost.length then
        { base.getD i d with cost := (cost.getD i d).cost }
      else base.getD i d := by
  induction cost generalizing base i with
  | nil => cases base <;> simp [copyCosts]
  | cons c cs ih =>
    cases base with
    | nil => simp at h
    | cons b bs =>
      cases i with
      | zero => simp [copyCosts]
      | succ n =>
        simp only [copyCosts, List.getD_cons_succ, List.length_cons,
          Nat.succ_lt_succ_iff]
        exact ih bs n (by simpa using h)

/-! Claim theorems. -/

/-- C1.  When both the usage-feed and cost-feed this-month daily series
are available, the merge of `csg_fetch_all` keeps the cost-feed series
and kwh total whenever the cost-feed series is at least as long as the
usage-feed series (in particular when the lengths are equal the result
is the cost-feed series unchanged), and otherwise keeps the usage-feed
series' dates and kwh values and the usage-feed kwh total, with the
`cost` field at each index of the cost-feed series copied in and later
indices keeping the usage-feed `cost`. -/
theorem merge_both_available (uk ck : ℚ) (us cs : List DailyRecord) :
    (us.length ≤ cs.length →
      mergeThisMonth (some (uk, us)) (some (ck, cs)) =
        (some cs, SVal.num ck)) ∧
    (cs.length < us.length →
      (mergeThisMonth (some (uk, us)) (some (ck, cs))).2 = SVal.num uk ∧
      ∃ m, (mergeThisMonth (some (uk, us)) (some (ck, cs))).1 = some m ∧
        m.length = us.length ∧
        ∀ i, i < us.length →
          (m.getD i default).date = (us.getD i default).date ∧
          (m.getD i default).kwh = (us.getD i default).kwh ∧
          (m.getD i default).cost =
            (if i < cs.length then (cs.getD i default).cost
             else (us.getD i default).cost)) := by
  constructor
  · intro h
    simp [mergeThisMonth, h]
  · intro h
    have hle : cs.length ≤ us.length := Nat.le_of_lt h
    have hnot : ¬ us.length ≤ cs.length := by omega
    refine ⟨by simp [mergeThisMonth, hnot], copyCosts us cs, ?_, ?_, ?_⟩
    · simp [mergeThisMonth, hnot]
    · exact copyCosts_length us cs hle
    · intro i hi
      rw [copyCosts_getD us cs i default hle]
      by_cases hic : i < cs.length <;> simp [hic]

/-- Witness for C1 at a concrete input: usage series of two days, cost
series of one day, so the usage series is kept with the first day's cost
copied in. -/
theorem merge_both_available_witness :
    (mergeThisMonth (some ((7 : ℚ), [⟨"d1", 1, none⟩, ⟨"d2", 2, none⟩]))
        (some ((3 : ℚ), [⟨"d1", 1, some 5⟩]))).2 = SVal.num 7 ∧
    (mergeThisMonth (some ((7 : ℚ), [⟨"d1", 1, none⟩]))
        (some ((3 : ℚ), [⟨"d1", 1, some 5⟩]))) =
      (some [⟨"d1", 1, some 5⟩], SVal.num 3) :=
  ⟨((merge_both_available 7 3 [⟨"d1", 1, none⟩, ⟨"d2", 2, none⟩]
      [⟨"d1", 1, some 5⟩]).2 (by decide)).1,
   (merge_both_available 7 3 [⟨"d1", 1, none⟩]
      [⟨"d1", 1, some 5⟩]).1 (by decide)⟩

/-- C2.  The refresh-policy flags of `csg_fetch_all`: with no stored
last-update-day marker both flags are true; with a marker,
`update_last_month` is true exactly when the day-of-month is at most 5,
and `update_last_year` is true exactly when the month is January, the
day-of-month is at most 5 and the stored day differs from the current
day; for day-of-month above 5 both flags are false. -/
theorem refresh_policy_flags (month day stored : Nat) :
    refreshPolicy none month day = (true, true) ∧
    ((refreshPolicy (some stored) month day).1 = true ↔ day ≤ 5) ∧
    ((refreshPolicy (some stored) month day).2 = true ↔
      (month = 1 ∧ day ≤ 5 ∧ stored ≠ day)) ∧
    (5 < day → refreshPolicy (some stored) month day = (false, false)) := by
  refine ⟨rfl, ?_, ?_, ?_⟩
  · simp [refreshPolicy]
  · simp [refreshPolicy, and_assoc]
  · intro h
    have h1 : ¬ day ≤ 5 := by omega
    simp [refreshPolicy, h1]

/-- Witness for C2 at a concrete input: marker present, February the
7th, both flags false. -/
theorem refresh_policy_flags_witness :
    refreshPolicy (some 3) 2 7 = (false, false) :=
  (refresh_policy_flags 2 7 3).2.2.2 (by decide)

/-- C3.  The latest-day resolution of `csg_fetch_all`: if the merged
this-month series is available and non-empty, latest-day kwh and date
come from its last element; else if the last-month series was fetched
this cycle (a list, neither unavailable nor unchanged) and is non-empty,
the three fields come from its last element with cost `STATE_UNKNOWN`;
else all three fields are `STATE_UNAVAILABLE`. -/
theorem latest_day_fallback (tmOpt : Option (List DailyRecord))
    (lm : LMSeries) (r : DailyRecord) (xs ys : List DailyRecord) :
    (tmOpt = some xs → xs.getLast? = some r →
      (latestDayFields tmOpt lm).1 = SVal.num r.kwh ∧
      (latestDayFields tmOpt lm).2.2 = SVal.date r.date) ∧
    ((tmOpt = none ∨ tmOpt = some []) → lm = LMSeries.list ys →
      ys.getLast? = some r →
      latestDayFields tmOpt lm =
        (SVal.num r.kwh, SVal.unknown, SVal.date r.date)) ∧
    ((tmOpt = none ∨ tmOpt = some []) →
      (lm = LMSeries.unavailable ∨ lm = LMSeries.unchanged ∨
        lm = LMSeries.list []) →
      latestDayFields tmOpt lm =
        (SVal.unavailable, SVal.unavailable, SVal.unavailable)) := by
  refine ⟨?_, ?_, ?_⟩
  · rintro rfl hlast
    simp [latestDayFields, hlast]
  · rintro (rfl | rfl) rfl hlast <;>
      simp [latestDayFields, latestFromLastMonth, hlast]
  · rintro (rfl | rfl) (rfl | rfl | rfl) <;>
      simp [latestDayFields, latestFromLastMonth]

/-- Witness for C3 at the spec's concrete input: this-month series
empty, last-month series one day `{date: "D", kwh: 5}`. -/
theorem latest_day_fallback_witness :
    latestDayFields (some []) (LMSeries.list [⟨"D", 5, none⟩]) =
      (SVal.num 5, SVal.unknown, SVal.date "D") :=
  (latest_day_fallback (some []) (LMSeries.list [⟨"D", 5, none⟩])
      ⟨"D", 5, none⟩ [] [⟨"D", 5, none⟩]).2.1
    (Or.inr rfl) rfl (by decide)

/-- Modelled from the spec sentence of C4 for a refinement comparison:
fetch last-month data "when the Refresh Policy says not to update
last-month, or when the merged this-month series is empty or
unavailable". -/
def claimedLastMonthFetch (updateLastMonth : Bool)
    (thisMonthByDay : Option (List DailyRecord)) : Bool :=
  !updateLastMonth || decide (thisMonthByDay = some [])
    || decide (thisMonthByDay = none)

/-- Counterexample to C4 as stated: with the policy saying to update
(`update_last_month = true`) and a non-empty merged this-month series,
the claim's fetch condition is false, so the claim marks last-month
"unchanged"; the code fetches fresh values. -/
theorem last_month_claim_cex :
    claimedLastMonthFetch true (some [⟨"2023-05-01", 1, none⟩]) = false ∧
    lastMonthFields true (some [⟨"2023-05-01", 1, none⟩])
        (some ((9 : ℚ), [⟨"2023-04-30", 9, none⟩])) ≠
      (SVal.unchanged, LMSeries.unchanged) := by
  decide

/-- C4 amended.  The last-month kwh and by-day fields are fetched fresh
exactly when the Refresh Policy says to update last-month, or the merged
this-month series is empty or unavailable; otherwise both fields are
marked `STATE_UPDATE_UNCHANGED`. -/
theorem last_month_policy (updateLastMonth : Bool)
    (tm : Option (List DailyRecord))
    (fetchRes : Option (ℚ × List DailyRecord)) :
    (lastMonthShouldFetch updateLastMonth tm = true ↔
      (updateLastMonth = true ∨ tm = none ∨ tm = some [])) ∧
    (lastMonthShouldFetch updateLastMonth tm = true →
      lastMonthFields updateLastMonth tm fetchRes =
        match fetchRes with
        | some (k, ys) => (SVal.num k, LMSeries.list ys)
        | none => (SVal.unavailable, LMSeries.unavailable)) ∧
    (lastMonthShouldFetch updateLastMonth tm = false →
      lastMonthFields updateLastMonth tm fetchRes =
        (SVal.unchanged, LMSeries.unchanged)) := by
  refine ⟨?_, ?_, ?_⟩
  · cases tm with
    | none => simp [lastMonthShouldFetch, thisMonthFalsy]
    | some xs =>
      cases xs <;> simp [lastMonthShouldFetch, thisMonthFalsy]
  · intro h
    simp [lastMonthFields, h]
  · intro h
    simp [lastMonthFields, h]

/-- Witness for C4 amended at a concrete input: empty merged series with
the policy saying not to update still fetches (and the fetch having
failed, yields unavailable fields). -/
theorem last_month_policy_witness :
    lastMonthFields false (some []) none =
      (SVal.unavailable, LMSeries.unavailable) :=
  (last_month_policy false (some []) none).2.1 (by decide)

/-- Counterexample to C5 as stated: a present cost value of `0` in the
merged series' last element is reported as `STATE_UNKNOWN`, not as the
value `0` (Python's `x.get("cost") or STATE_UNKNOWN` treats `0` as
falsy). -/
theorem latest_day_cost_zero_cex :
    (latestDayFields (some [⟨"2023-05-02", 3, some 0⟩])
        LMSeries.unavailable).2.1 = SVal.unknown ∧
    SVal.unknown ≠ SVal.num 0 := by
  decide

/-- C5 amended.  For an available non-empty merged this-month series,
latest-day cost equals the last element's cost field whenever it is
present and non-zero, and equals `STATE_UNKNOWN` when the cost field is
absent or equal to `0`. -/
theorem latest_day_cost_rule (tm : List DailyRecord) (lm : LMSeries)
    (r : DailyRecord) (h : tm.getLast? = some r) :
    (∀ q : ℚ, r.cost = some q → q ≠ 0 →
      (latestDayFields (some tm) lm).2.1 = SVal.num q) ∧
    ((r.cost = none ∨ r.cost = some 0) →
      (latestDayFields (some tm) lm).2.1 = SVal.unknown) := by
  constructor
  · intro q hq hq0
    simp [latestDayFields, h, costOrUnknown, hq, hq0]
  · rintro (hc | hc) <;> simp [latestDayFields, h, costOrUnknown, hc]

/-- Witness for C5 amended at the spec's concrete input: last element
`{date: "D2", kwh: 4, cost: 1.6}` yields latest-day cost `1.6`. -/
theorem latest_day_cost_rule_witness :
    (latestDayFields
        (some [⟨"D1", 3, some (6/5)⟩, ⟨"D2", 4, some (8/5)⟩])
        LMSeries.unavailable).2.1 = SVal.num (8/5) :=
  (latest_day_cost_rule [⟨"D1", 3, some (6/5)⟩, ⟨"D2", 4, some (8/5)⟩]
      LMSeries.unavailable ⟨"D2", 4, some (8/5)⟩ rfl).1
    (8/5) rfl (by norm_num)

/-- C6.  On a classified remote-API error, `_safe_fetch` returns the
expected number of `STATE_UNAVAILABLE` sentinels (a single sentinel for
arity 1) instead of propagating, and a single call's failure degrades
only its own snapshot fields: the snapshot built with a failed
balance/arrears call differs from the one built with a successful call
only in the `bal` and `arr` fields. -/
theorem safe_fetch_isolates (n : Nat) (e : ApiError) (ulm uly : Bool)
    (p : ℚ × ℚ) (y : Option ℚ) (ty : Option (ℚ × ℚ))
    (ur : Option (ℚ × List DailyRecord))
    (cr : Option (ℚ × ℚ × LadderInfo × List DailyRecord))
    (lyr : Option (ℚ × ℚ)) (lmr : Option (ℚ × List DailyRecord)) :
    safeFetch 1 (Except.error e) = FetchOutcome.ok unavailableSentinel ∧
    (n ≠ 1 → safeFetch n (Except.error e) =
      FetchOutcome.ok (PyObj.tuple (List.replicate n unavailableLeaf))) ∧
    ((buildSnapshot ulm uly none y ty ur cr lyr lmr).bal =
        SVal.unavailable ∧
      (buildSnapshot ulm uly none y ty ur cr lyr lmr).arr =
        SVal.unavailable ∧
      buildSnapshot ulm uly none y ty ur cr lyr lmr =
        { buildSnapshot ulm uly (some p) y ty ur cr lyr lmr with
            bal := SVal.unavailable, arr := SVal.unavailable }) := by
  refine ⟨rfl, ?_, rfl, rfl, rfl⟩
  intro h
  simp [safeFetch, h, pyLen]

/-- Witness for C6 at a concrete input: a failed arity-2 call yields the
two-sentinel tuple. -/
theorem safe_fetch_isolates_witness :
    safeFetch 2 (Except.error ⟨"remote failure"⟩) =
      FetchOutcome.ok (PyObj.tuple [unavailableLeaf, unavailableLeaf]) :=
  (safe_fetch_isolates 2 ⟨"remote failure"⟩ true true (0, 0) none none
      none none none none).2.1 (by decide)

/-- C7.  Each cycle-level failure kind raises a typed `UpdateFailed`
with a human-readable reason specific to the kind, and leaves the
last-update-day marker at its previous value; only a successfully
completed fetch returns the data and stores the current day-of-month. -/
theorem cycle_failure_typed {α : Type} (marker : Option Nat) (day : Nat)
    (e : CycleError) (a : α) (m : String) :
    runCycle marker day (Except.error e : Except CycleError α) =
      (Except.error (classifyCycleError e), marker) ∧
    (classifyCycleError CycleError.notLoggedIn).reason =
      "Session invalidated unexpectedly" ∧
    (classifyCycleError (CycleError.api m)).reason =
      "Error communicating with API: " ++ m ∧
    (classifyCycleError (CycleError.timeout m)).reason =
      "Timeout communicating with API: " ++ m ∧
    (classifyCycleError (CycleError.unexpected m)).reason =
      "Unexpected exception: " ++ m ∧
    runCycle marker day (Except.ok a) = (Except.ok a, some day) :=
  ⟨rfl, rfl, rfl, rfl, rfl, rfl⟩

/-- C8.  A configured per-cycle timeout below the 60-second floor runs
with the floor substituted and a warning logged; a timeout at or above
the floor is used unchanged with no warning. -/
theorem timeout_floor (t : ℚ) :
    (t < 60 → effectiveTimeout t = (60, true)) ∧
    (60 ≤ t → effectiveTimeout t = (t, false)) := by
  constructor
  · intro h
    simp [effectiveTimeout, h]
  · intro h
    simp [effectiveTimeout, not_lt.mpr h]

/-- Witness for C8 at concrete inputs: 30 seconds is raised to the
floor with a warning, 90 seconds is kept. -/
theorem timeout_floor_witness :
    effectiveTimeout 30 = (60, true) ∧
    effectiveTimeout 90 = (90, false) :=
  ⟨(timeout_floor 30).1 (by norm_num),
   (timeout_floor 90).2 (by norm_num)⟩

/-- C10.  An arity-1 `_safe_fetch` call returns whatever value the
operation returned, unvalidated (even a tuple of a different size), and
among calls of arity at least one, the arity-mismatch ValueError can
only be raised for arity greater than 1. -/
theorem arity_one_no_check (v : PyObj) (n : Nat)
    (op : Except ApiError PyObj) :
    safeFetch 1 (Except.ok v) = FetchOutcome.ok v ∧
    (1 ≤ n → safeFetch n op = FetchOutcome.valueError → 1 < n) := by
  constructor
  · rfl
  · intro h1 hv
    rcases Nat.lt_or_ge 1 n with h | h
    · exact h
    · exfalso
      have hn : n = 1 := le_antisymm h h1
      subst hn
      simp [safeFetch] at hv

/-- Witness for C10 at concrete inputs: an arity-1 call passing a
3-tuple through unvalidated, and an arity-2 call raising the mismatch
error on a 1-tuple. -/
theorem arity_one_no_check_witness :
    safeFetch 1
        (Except.ok (PyObj.tuple
          [unavailableLeaf, unavailableLeaf, unavailableLeaf])) =
      FetchOutcome.ok (PyObj.tuple
        [unavailableLeaf, unavailableLeaf, unavailableLeaf]) ∧
    (1 : Nat) < 2 :=
  ⟨(arity_one_no_check
      (PyObj.tuple [unavailableLeaf, unavailableLeaf, unavailableLeaf]) 2
      (Except.ok (PyObj.tuple [unavailableLeaf]))).1,
   (arity_one_no_check
      (PyObj.tuple [unavailableLeaf, unavailableLeaf, unavailableLeaf]) 2
      (Except.ok (PyObj.tuple [unavailableLeaf]))).2 (by decide)
     (by decide)⟩

/-! State-classification lemmas feeding the snapshot invariant. -/

lemma threeState_of_states {v : SVal}
    (h : v.isConcrete = true ∨ v = SVal.unavailable ∨ v = SVal.unchanged) :
    threeState v = true := by
  rcases h with h | h | h <;> simp [threeState, h]

lemma latestFromLastMonth_states (lm : LMSeries) :
    ((latestFromLastMonth lm).1.isConcrete = true ∨
      (latestFromLastMonth lm).1 = SVal.unavailable) ∧
    ((latestFromLastMonth lm).2.1.isConcrete = true ∨
      (latestFromLastMonth lm).2.1 = SVal.unavailable ∨
      (latestFromLastMonth lm).2.1 = SVal.unknown) ∧
    ((latestFromLastMonth lm).2.2.isConcrete = true ∨
      (latestFromLastMonth lm).2.2 = SVal.unavailable) := by
  cases lm with
  | list ys =>
    cases h : ys.getLast? <;>
      simp [latestFromLastMonth, h, SVal.isConcrete]
  | unavailable => simp [latestFromLastMonth]
  | unchanged => simp [latestFromLastMonth]

lemma costOrUnknown_states (c : Option ℚ) :
    (costOrUnknown c).isConcrete = true ∨
      costOrUnknown c = SVal.unknown := by
  cases c with
  | none => exact Or.inr rfl
  | some q =>
    by_cases h : q = 0 <;> simp [costOrUnknown, h, SVal.isConcrete]

lemma latestDayFields_states (tm : Option (List DailyRecord))
    (lm : LMSeries) :
    ((latestDayFields tm lm).1.isConcrete = true ∨
      (latestDayFields tm lm).1 = SVal.unavailable) ∧
    ((latestDayFields tm lm).2.1.isConcrete = true ∨
      (latestDayFields tm lm).2.1 = SVal.unavailable ∨
      (latestDayFields tm lm).2.1 = SVal.unknown) ∧
    ((latestDayFields tm lm).2.2.isConcrete = true ∨
      (latestDayFields tm lm).2.2 = SVal.unavailable) := by
  rcases tm with _ | xs
  · cases lm with
    | list ys =>
      cases h : ys.getLast? <;>
        simp [latestDayFields, latestFromLastMonth, h, SVal.isConcrete]
    | unavailable => simp [latestDayFields, latestFromLastMonth]
    | unchanged => simp [latestDayFields, latestFromLastMonth]
  · cases h : xs.getLast? with
    | none =>
      cases lm with
      | list ys =>
        cases h2 : ys.getLast? <;>
          simp [latestDayFields, latestFromLastMonth, h, h2,
            SVal.isConcrete]
      | unavailable =>
        simp [latestDayFields, latestFromLastMonth, h]
      | unchanged =>
        simp [latestDayFields, latestFromLastMonth, h]
    | some r =>
      refine ⟨?_, ?_, ?_⟩
      · simp [latestDayFields, h, SVal.isConcrete]
      · rcases costOrUnknown_states r.cost with hc | hc <;>
          simp [latestDayFields, h, hc]
      · simp [latestDayFields, h, SVal.isConcrete]

lemma mergeThisMonth_kwh_states (u c : Option (ℚ × List DailyRecord)) :
    (mergeThisMonth u c).2.isConcrete = true ∨
      (mergeThisMonth u c).2 = SVal.unavailable := by
  rcases u with _ | ⟨uk, us⟩ <;> rcases c with _ | ⟨ck, cs⟩
  · exact Or.inr rfl
  · exact Or.inl rfl
  · exact Or.inl rfl
  · by_cases h : us.length ≤ cs.length <;>
      simp [mergeThisMonth, h, SVal.isConcrete]

lemma lastMonthFields_states (upd : Bool)
    (tm : Option (List DailyRecord))
    (fr : Option (ℚ × List DailyRecord)) :
    threeState (lastMonthFields upd tm fr).1 = true := by
  unfold lastMonthFields
  split
  · rcases fr with _ | ⟨k, ys⟩ <;> simp [threeState, SVal.isConcrete]
  · simp [threeState]

lemma lastYearFields_states (upd : Bool) (fr : Option (ℚ × ℚ)) :
    threeState (lastYearFields upd fr).1 = true ∧
    threeState (lastYearFields upd fr).2 = true := by
  unfold lastYearFields
  split
  · rcases fr with _ | ⟨c, k⟩ <;> simp [threeState, SVal.isConcrete]
  · simp [threeState]

lemma ladderFields_states (ld : Option LadderInfo) :
    threeState (ladderFields ld).1 = true ∧
    threeState (ladderFields ld).2.1 = true ∧
    threeState (ladderFields ld).2.2.1 = true ∧
    threeState (ladderFields ld).2.2.2 = true := by
  rcases ld with _ | ⟨l1, l2, l3, l4⟩
  · simp [ladderFields, threeState]
  · cases l1 <;> cases l2 <;> cases l3 <;> cases l4 <;>
      simp [ladderFields, threeState, SVal.isConcrete]

/-- Counterexample to C9 as stated: a successful cycle whose merged
this-month series has a last element without a cost field emits
latest-day cost as `STATE_UNKNOWN`, which is none of the three states
value / unavailable / unchanged. -/
theorem snapshot_unknown_cex :
    (buildSnapshot true true none none none
        (some ((5 : ℚ), [⟨"2023-01-02", 5, none⟩])) none none
        none).latestDayCost = SVal.unknown ∧
    threeState SVal.unknown = false := by
  decide

/-- C9 amended.  In every emitted account snapshot each scalar field is
exactly one of the three states value / `STATE_UNAVAILABLE` /
`STATE_UPDATE_UNCHANGED`, except latest-day cost, which is a value,
`STATE_UNAVAILABLE`, or the `STATE_UNKNOWN` sentinel. -/
theorem snapshot_three_state (ulm uly : Bool) (ba : Option (ℚ × ℚ))
    (y : Option ℚ) (ty : Option (ℚ × ℚ))
    (ur : Option (ℚ × List DailyRecord))
    (cr : Option (ℚ × ℚ × LadderInfo × List DailyRecord))
    (lyr : Option (ℚ × ℚ)) (lmr : Option (ℚ × List DailyRecord)) :
    threeState (buildSnapshot ulm uly ba y ty ur cr lyr lmr).bal = true ∧
    threeState (buildSnapshot ulm uly ba y ty ur cr lyr lmr).arr = true ∧
    threeState
      (buildSnapshot ulm uly ba y ty ur cr lyr lmr).yesterdayKwh = true ∧
    threeState
      (buildSnapshot ulm uly ba y ty ur cr lyr lmr).latestDayKwh = true ∧
    threeState
      (buildSnapshot ulm uly ba y ty ur cr lyr lmr).latestDayDate = true ∧
    threeState
      (buildSnapshot ulm uly ba y ty ur cr lyr lmr).thisYearKwh = true ∧
    threeState
      (buildSnapshot ulm uly ba y ty ur cr lyr lmr).thisYearCost = true ∧
    threeState
      (buildSnapshot ulm uly ba y ty ur cr lyr lmr).lastYearKwh = true ∧
    threeState
      (buildSnapshot ulm uly ba y ty ur cr lyr lmr).lastYearCost = true ∧
    threeState
      (buildSnapshot ulm uly ba y ty ur cr lyr lmr).thisMonthKwh = true ∧
    threeState
      (buildSnapshot ulm uly ba y ty ur cr lyr lmr).thisMonthCost = true ∧
    threeState
      (buildSnapshot ulm uly ba y ty ur cr lyr lmr).lastMonthKwh = true ∧
    threeState
      (buildSnapshot ulm uly ba y ty ur cr lyr lmr).ladderStage = true ∧
    threeState
      (buildSnapshot ulm uly ba y ty ur cr lyr lmr).ladderRemainingKwh =
      true ∧
    threeState
      (buildSnapshot ulm uly ba y ty ur cr lyr lmr).ladderTariff = true ∧
    threeState
      (buildSnapshot ulm uly ba y ty ur cr lyr lmr).ladderStartDate =
      true ∧
    ((buildSnapshot ulm uly ba y ty ur cr lyr lmr).latestDayCost.isConcrete
        = true ∨
      (buildSnapshot ulm uly ba y ty ur cr lyr lmr).latestDayCost =
        SVal.unavailable ∨
      (buildSnapshot ulm uly ba y ty ur cr lyr lmr).latestDayCost =
        SVal.unknown) := by
  have hladder := ladderFields_states (cr.map (fun r => r.2.2.1))
  have hmerge :=
    mergeThisMonth_kwh_states ur (cr.map (fun r => (r.2.1, r.2.2.2)))
  have hlm :=
    lastMonthFields_states ulm
      (mergeThisMonth ur (cr.map (fun r => (r.2.1, r.2.2.2)))).1 lmr
  have hly := lastYearFields_states uly lyr
  have hlatest :=
    latestDayFields_states
      (mergeThisMonth ur (cr.map (fun r => (r.2.1, r.2.2.2)))).1
      (lastMonthFields ulm
        (mergeThisMonth ur (cr.map (fun r => (r.2.1, r.2.2.2)))).1
        lmr).2
  refine ⟨?_, ?_, ?_, ?_, ?_, ?_, ?_, ?_, ?_, ?_, ?_, ?_, ?_, ?_, ?_,
    ?_, ?_⟩
  · rcases ba with _ | ⟨b, a⟩ <;>
      simp [buildSnapshot, threeState, SVal.isConcrete]
  · rcases ba with _ | ⟨b, a⟩ <;>
      simp [buildSnapshot, threeState, SVal.isConcrete]
  · rcases y with _ | q <;>
      simp [buildSnapshot, threeState, SVal.isConcrete]
  · exact threeState_of_states
      (by simpa [buildSnapshot] using hlatest.1.imp id Or.inl)
  · exact threeState_of_states
      (by simpa [buildSnapshot] using hlatest.2.2.imp id Or.inl)
  · rcases ty with _ | ⟨c, k⟩ <;>
      simp [buildSnapshot, threeState, SVal.isConcrete]
  · rcases ty with _ | ⟨c, k⟩ <;>
      simp [buildSnapshot, threeState, SVal.isConcrete]
  · simpa [buildSnapshot] using hly.2
  · simpa [buildSnapshot] using hly.1
  · exact threeState_of_states
      (by simpa [buildSnapshot] using hmerge.imp id Or.inl)
  · rcases cr with _ | ⟨c, rest⟩ <;>
      simp [buildSnapshot, threeState, SVal.isConcrete]
  · simpa [buildSnapshot] using hlm
  · simpa [buildSnapshot] using hladder.1
  · simpa [buildSnapshot] using hladder.2.1
  · simpa [buildSnapshot] using hladder.2.2.1
  · simpa [buildSnapshot] using hladder.2.2.2
  · simpa [buildSnapshot] using hlatest.2.1

end CSG
